import Mathlib

/-!
Verification of the FreshMart storefront's client-side session and mock
service layer (`src/services/SessionService.js` and the related unnamed
copies).  The JavaScript is shallowly embedded: JS numbers that hold epoch
milliseconds become `Int`, JS objects with optional fields become
structures whose fields are `Option`-typed (`none` = property absent),
`localStorage` becomes an explicit record threaded through the operations,
and `throw`/`catch` becomes `Except`.
-/

set_option autoImplicit false

namespace FreshMart

/-- Largest magnitude (in ms) that a JS `Date` can represent;
`new Date(n)` is an Invalid Date when `|n|` exceeds this bound
(ECMA-262 time value range). -/
def maxTimeMs : Nat := 8640000000000000

/-- `new Date(n).getTime()` for a JS number `n`: the number itself inside
the representable range, `NaN` (modelled as `none`) outside it. -/
def jsDateMs (n : Int) : Option Int :=
  if n.natAbs ≤ maxTimeMs then some n else none

/-- The value stored under `expiresAt` (and similar date fields).  The
code writes ISO strings but stored blobs may also hold epoch-millisecond
numbers; `str s t` carries the host `Date.parse` result `t` for the
string `s` alongside it (`none` = Invalid Date / `NaN`). -/
inductive ExpiresVal where
  | str (s : String) (t : Option Int)
  | num (n : Int)
  deriving DecidableEq

/-- JS truthiness of an `expiresAt` value: the empty string and the
number `0` are falsy. -/
def ExpiresVal.jsFalsy : ExpiresVal → Bool
  | .str s _ => s == ""
  | .num n => n == 0

/-- `new Date(x).getTime()` for an optional `expiresAt` value:
a missing property (`undefined`) and an unparseable string give `NaN`
(`none`); numbers go through `jsDateMs`. -/
def jsGetTime : Option ExpiresVal → Option Int
  | none => none
  | some (.str _ t) => t
  | some (.num n) => jsDateMs n

/-- JS `now > x` where `x` may be `NaN`: every comparison with `NaN`
is false. -/
def jsGtNaN (now : Int) : Option Int → Bool
  | none => false
  | some t => decide (now > t)

/-- Stand-in for `new Date(t).toISOString()`.  Only the parse oracle
carried next to it matters to the code; like a real ISO string it is
never empty. -/
def isoStringOf (t : Int) : String := toString t

/-- The nested `settings` object created for users. -/
structure Settings where
  theme : String
  currency : String
  notifications : Bool
  deriving DecidableEq

/-- A JS user object.  Every field is `Option`-typed because the various
stored copies may omit properties; `email : Option (Option String)` keeps
`email: null` (`some none`) distinct from a missing property (`none`). -/
structure User where
  id : Option String
  name : Option String
  email : Option (Option String)
  role : Option String
  permissions : Option (List String)
  isGuest : Option Bool
  settings : Option Settings
  deriving DecidableEq

/-- The user object with no properties, `{}`. -/
def emptyUser : User :=
  { id := none, name := none, email := none, role := none,
    permissions := none, isGuest := none, settings := none }

/-- JS object spread `{...base, ...upd}` on user objects: a property of
`upd` overrides the one of `base`. -/
def mergeUser (base upd : User) : User :=
  { id := upd.id <|> base.id
    name := upd.name <|> base.name
    email := upd.email <|> base.email
    role := upd.role <|> base.role
    permissions := upd.permissions <|> base.permissions
    isGuest := upd.isGuest <|> base.isGuest
    settings := upd.settings <|> base.settings }

/-- A parsed session object as stored under `freshmart_session`.
`some` marks a present property.  `createdAt`/`lastActivity` hold the
instant whose ISO string the code wrote. -/
structure SessionJson where
  id : Option String
  user : Option User
  token : Option String
  createdAt : Option Int
  expiresAt : Option ExpiresVal
  isAuthenticated : Option Bool
  lastActivity : Option Int
  deriving DecidableEq

/-- What `JSON.parse` of a stored blob can yield: a session-shaped
object, or a non-object value (numbers, strings, `null`), which
`validateSessionData` rejects. -/
inductive JsonVal where
  | nonObject
  | obj (j : SessionJson)
  deriving DecidableEq

/-- A raw stored blob: `corrupt` stands for data on which `JSON.parse`
throws. -/
inductive StoredBlob where
  | corrupt
  | val (v : JsonVal)
  deriving DecidableEq

/-- The browser `localStorage` keys the main `SessionService` touches. -/
structure LS where
  sessionBlob : Option StoredBlob
  tokenVal : Option String
  userBlob : Option User
  settingsVal : Option String
  deriving DecidableEq

/-- Storage with none of the keys set. -/
def emptyLS : LS :=
  { sessionBlob := none, tokenVal := none, userBlob := none, settingsVal := none }

/-- Result of a stateful `SessionService` method: the updated storage,
the return value, and the arguments of the `notifySessionChange` calls
it made, in order. -/
structure SvcResult (α : Type) where
  state : LS
  ret : α
  events : List (Option SessionJson)
  deriving DecidableEq

/-- `SessionService.sessionTimeout`, 24 hours in milliseconds. -/
def sessionTimeout : Int := 24 * 60 * 60 * 1000

/-- JS truthiness of the `token` argument (`null`/empty string falsy). -/
def jsTruthyStr : Option String → Bool
  | none => false
  | some s => s != ""

/-- `SessionService.validateSessionData`: false for `null`/non-objects,
otherwise `hasOwnProperty` on `id`, `user`, `createdAt`, `expiresAt`. -/
def validateSessionData : Option JsonVal → Bool
  | none => false
  | some .nonObject => false
  | some (.obj j) =>
      j.id.isSome && j.user.isSome && j.createdAt.isSome && j.expiresAt.isSome

/-- `SessionService.getSession`: read the stored blob; a missing key or a
`JSON.parse` failure yields `null`; a parsed value is returned only when
`validateSessionData` accepts it. -/
def getSession (ls : LS) : Option SessionJson :=
  match ls.sessionBlob with
  | none => none
  | some .corrupt => none
  | some (.val .nonObject) => none
  | some (.val (.obj j)) =>
      if validateSessionData (some (.obj j)) then some j else none

/-- `SessionService.getCurrentSession`: `Promise.resolve(this.getSession())`
(the promise wrapper is dropped in the embedding). -/
def getCurrentSession (ls : LS) : Option SessionJson := getSession ls

/-- The session object literal `createSession` builds at time `now`. -/
def mkSession (now : Int) (userData : User) (token : Option String) : SessionJson :=
  { id := some (toString now)
    user := some userData
    token := token
    createdAt := some now
    expiresAt := some (.str (isoStringOf (now + sessionTimeout))
                            (some (now + sessionTimeout)))
    isAuthenticated := some (jsTruthyStr token)
    lastActivity := some now }

/-- `SessionService.createSession`: build the session, validate it,
persist it under the session/token/user keys, notify the callbacks and
return it; any failure is caught and turned into `null`. -/
def createSession (now : Int) (userData : User) (token : Option String)
    (ls : LS) : SvcResult (Option SessionJson) :=
  let session := mkSession now userData token
  if validateSessionData (some (.obj session)) then
    { state :=
        { ls with
          sessionBlob := some (.val (.obj session))
          tokenVal := if jsTruthyStr token then token else ls.tokenVal
          userBlob := some userData }
      ret := some session
      events := [some session] }
  else
    { state := ls, ret := none, events := [] }

/-- The guest user object built by `createGuestSession`; note that the
main copy sets no `isGuest` property on it. -/
def guestUser (now : Int) : User :=
  { id := some ("guest_" ++ toString now)
    name := some "Guest User"
    email := some none
    role := some "guest"
    permissions := some ["view_products", "add_to_cart"]
    isGuest := none
    settings := some { theme := "light", currency := "USD", notifications := false } }

/-- `SessionService.createGuestSession`: `createSession(guestUser)` with
no token. -/
def createGuestSession (now : Int) (ls : LS) : SvcResult (Option SessionJson) :=
  createSession now (guestUser now) none ls

/-- `SessionService.isSessionExpired(session = null)`: a falsy argument
falls back to `getSession()`; a null session is expired; otherwise
`Date.now() > new Date(expiresAt).getTime()`, which is false whenever the
`getTime` result is `NaN`. -/
def isSessionExpired (now : Int) (ls : LS) (session : Option SessionJson) : Bool :=
  match session <|> getSession ls with
  | none => true
  | some s => jsGtNaN now (jsGetTime s.expiresAt)

/-- `SessionService.clearSession`: remove all four keys and notify the
callbacks with `null`. -/
def clearSession (_ls : LS) : SvcResult Unit :=
  { state := emptyLS, ret := (), events := [none] }

/-- `SessionService.updateUser`: without a stored session return `false`;
otherwise spread the partial user over the session's user, refresh
`lastActivity`, persist and notify. -/
def updateUser (now : Int) (userData : User) (ls : LS) : SvcResult Bool :=
  match getSession ls with
  | none => { state := ls, ret := false, events := [] }
  | some s =>
      let newUser := mergeUser (s.user.getD emptyUser) userData
      let s' := { s with user := some newUser, lastActivity := some now }
      { state := { ls with sessionBlob := some (.val (.obj s')), userBlob := some newUser }
        ret := true
        events := [some s'] }

/-- `SessionService.initializeSession`: keep a stored, unexpired session;
otherwise clear storage and create a fresh guest session. -/
def initializeSession (now : Int) (ls : LS) : SvcResult (Option SessionJson) :=
  match getSession ls with
  | some s =>
      if !(isSessionExpired now ls (some s)) then
        { state := ls, ret := some s, events := [] }
      else
        let c := clearSession ls
        let g := createGuestSession now c.state
        { state := g.state, ret := g.ret, events := c.events ++ g.events }
  | none =>
      let c := clearSession ls
      let g := createGuestSession now c.state
      { state := g.state, ret := g.ret, events := c.events ++ g.events }

/-- `SessionService.getDefaultPermissions`: the role permission map, with
the guest list as `permissionMap[role] || permissionMap.guest` fallback. -/
def getDefaultPermissions (role : String) : List String :=
  if role == "admin" then ["*"]
  else if role == "manager" then
    ["view_products", "manage_products", "view_orders", "manage_orders", "view_reports"]
  else if role == "employee" then ["view_products", "view_orders", "process_orders"]
  else if role == "customer" then
    ["view_products", "add_to_cart", "place_orders", "view_own_orders"]
  else ["view_products", "add_to_cart"]

/-- `isSessionExpired` of the `src/unnamed/part_007` SessionService copy:
a falsy or non-object session is expired; a falsy `expiresAt` property
("no expiration time set") makes the session non-expiring; a string is
parsed with `new Date`, and a `NaN` result is treated as expired;
otherwise `Date.now() > expiresAt`. -/
def isSessionExpiredP007 (now : Int) (session : Option SessionJson) : Bool :=
  match session with
  | none => true
  | some s =>
      match s.expiresAt with
      | none => false
      | some e =>
          if e.jsFalsy then false
          else
            match e with
            | .str _ t =>
                match t with
                | none => true
                | some tv => decide (now > tv)
            | .num n => decide (now > n)

/-- `isSessionExpired` of the `src/unnamed/part_002` SessionService copy:
a falsy session or a falsy/missing `expiresAt` is expired; otherwise the
`Date` objects are compared with `currentTime >= expiryTime`, which is
false when the expiry date is invalid. -/
def isSessionExpiredP002 (now : Int) (session : Option SessionJson) : Bool :=
  match session with
  | none => true
  | some s =>
      match s.expiresAt with
      | none => true
      | some e =>
          if e.jsFalsy then true
          else
            match jsGetTime (some e) with
            | none => false
            | some t => decide (now ≥ t)

/-- `isSessionExpired` of the `src/unnamed/part_004` SessionService copy:
a falsy session or a falsy/missing `expiresAt` is expired; otherwise
`getTime()` values are compared with `currentTime > expirationTime`,
which is false when the expiry date is invalid (`NaN`). -/
def isSessionExpiredP004 (now : Int) (session : Option SessionJson) : Bool :=
  match session with
  | none => true
  | some s =>
      match s.expiresAt with
      | none => true
      | some e =>
          if e.jsFalsy then true
          else
            match jsGetTime (some e) with
            | none => false
            | some t => decide (now > t)

/-! ## ProductService -/

/-- A product record from the catalog.  The three financial fields are
`Option`-typed because the non-admin views remove those properties. -/
structure Product where
  id : Int
  name : String
  price : Int
  stock : Int
  category : Option String
  imageUrl : Option String
  purchasePrice : Option Int
  minSellingPrice : Option Int
  profitMargin : Option Int
  deriving DecidableEq

/-- The rest-destructuring `const { purchasePrice, minSellingPrice,
profitMargin, ...filteredProduct } = product`: the same product with the
three financial properties absent. -/
def stripFinancial (p : Product) : Product :=
  { p with purchasePrice := none, minSellingPrice := none, profitMargin := none }

/-- `ProductService.getAll(userRole)`: non-admin callers get every product
with the financial fields removed; admins get the catalog as is.  (The
source also skips `null`/non-object entries and rejects a non-array
catalog; neither can occur for the well-typed catalog list, so those
branches are dead here.) -/
def productGetAll (products : List Product) (userRole : String) : List Product :=
  if userRole != "admin" then products.map stripFinancial
  else products

/-- `pre` is a prefix of the character list. -/
def listPrefixOf : List Char → List Char → Bool
  | [], _ => true
  | _ :: _, [] => false
  | a :: as, b :: bs => a == b && listPrefixOf as bs

/-- `pat` occurs somewhere inside the character list. -/
def listInfixOf (pat : List Char) : List Char → Bool
  | [] => pat.isEmpty
  | c :: cs => listPrefixOf pat (c :: cs) || listInfixOf pat cs

/-- `s.includes(pat)`: embeds the `error.message.includes(...)` dispatch
of the catch blocks (hand-rolled over character lists so that it
evaluates inside the kernel). -/
def strContains (s pat : String) : Bool := listInfixOf pat.data s.data

/-- `s.toLowerCase()` (hand-rolled over character lists so that it
evaluates inside the kernel). -/
def strToLower (s : String) : String := String.mk (s.data.map Char.toLower)

/-- The catch block of `ProductService.getById`: messages mentioning
`not found` / `Invalid` / `corrupted` are rethrown unchanged, network
messages and everything else are rewrapped. -/
def rewrapProductError (msg : String) : String :=
  if strContains msg "not found" || strContains msg "Invalid" || strContains msg "corrupted" then
    msg
  else if strContains msg "network" || strContains msg "timeout" then
    "Network error loading product. Please check your connection and try again."
  else
    "Failed to load product details. Please try again later."

/-- `ProductService.getById(id, userRole)` with a numeric id: a falsy id
throws `Invalid product ID provided`, a non-positive one `Product ID must
be a positive number`; an id without a matching product throws `Product
not found`; otherwise non-admins get the product with financial fields
stripped and admins a copy of it.  The catch block rewraps messages via
`rewrapProductError`. -/
def productGetById (products : List Product) (id : Int) (userRole : String) :
    Except String Product :=
  let inner : Except String Product :=
    if id == 0 then .error "Invalid product ID provided"
    else if id ≤ 0 then .error "Product ID must be a positive number"
    else
      match products.find? (fun p => p.id == id) with
      | none => .error "Product not found"
      | some product =>
          if userRole != "admin" then .ok (stripFinancial product)
          else .ok product
  match inner with
  | .ok p => .ok p
  | .error msg => .error (rewrapProductError msg)

/-! ## VendorService -/

/-- A vendor record.  `deletedAt`/`updatedAt` hold the instant whose ISO
string the code wrote. -/
structure Vendor where
  id : Int
  name : String
  email : String
  phone : String
  businessType : String
  address : String
  status : String
  rating : Int
  totalOrders : Int
  deletedAt : Option Int
  updatedAt : Option Int
  deriving DecidableEq

/-- The soft-delete record update of `VendorService.deleteVendor`:
`status: 'inactive'`, `deletedAt`/`updatedAt` set to `now`, every other
field spread through unchanged. -/
def markDeleted (now : Int) (v : Vendor) : Vendor :=
  { v with status := "inactive", deletedAt := some now, updatedAt := some now }

/-- `findIndex(v => v.id === vendorId)` followed by replacing that single
element with its soft-deleted copy: `none` when no vendor matches. -/
def softDeleteFirst (now : Int) (vendorId : Int) :
    List Vendor → Option (List Vendor)
  | [] => none
  | v :: rest =>
      if v.id == vendorId then some (markDeleted now v :: rest)
      else (softDeleteFirst now vendorId rest).map (v :: ·)

/-- `VendorService.deleteVendor(vendorId)`: a falsy id throws `Vendor ID
is required`; an id with no matching vendor throws `Vendor not found`;
otherwise the first matching vendor is soft-deleted in place and a
success message returned.  The vendors list is the service state and is
untouched on the error paths. -/
def deleteVendor (now : Int) (vendors : List Vendor) (vendorId : Int) :
    List Vendor × Except String String :=
  if vendorId == 0 then (vendors, .error "Vendor ID is required")
  else
    match softDeleteFirst now vendorId vendors with
    | none => (vendors, .error "Vendor not found")
    | some vendors' => (vendors', .ok "Vendor deleted successfully")

/-- `VendorService.login(credentials)`: missing email or password throws;
the vendor is looked up by case-insensitive email among `active` vendors;
a miss throws `Invalid credentials or vendor not found`; a wrong password
(anything but the mock `vendor123`) throws `Invalid credentials`;
otherwise the vendor's id is returned (the stored vendor session and the
returned object are keyed by it). -/
def vendorLogin (vendors : List Vendor) (email password : String) :
    Except String Int :=
  if email == "" || password == "" then .error "Email and password are required"
  else
    match vendors.find? (fun v => strToLower v.email == strToLower email && v.status == "active") with
    | none => .error "Invalid credentials or vendor not found"
    | some v =>
        if password != "vendor123" then .error "Invalid credentials"
        else .ok v.id

/-! ## Concrete fixtures used by witnesses and counterexamples -/

/-- A partial user update touching only `name`, as in `updateUser({name: "X"})`. -/
def namePatch (x : String) : User := { emptyUser with name := some x }

/-- A plain authenticated-customer user object. -/
def sampleUser : User :=
  { emptyUser with id := some "u1", name := some "Alice", role := some "customer" }

/-- A structurally complete session whose `expiresAt` property is absent. -/
def jNoExpiry : SessionJson :=
  { id := some "1", user := some sampleUser, token := none, createdAt := some 0,
    expiresAt := none, isAuthenticated := some false, lastActivity := some 0 }

/-- A session whose `expiresAt` is a non-empty string that `Date.parse`
rejects (`NaN`). -/
def jBadStr : SessionJson :=
  { jNoExpiry with expiresAt := some (.str "not-a-date" none) }

/-- A session that expired on 2020-01-01 (epoch 1577836800000 ms). -/
def jExpired : SessionJson :=
  { jNoExpiry with
    createdAt := some 1577750400000
    expiresAt := some (.str "2020-01-01T00:00:00.000Z" (some 1577836800000)) }

/-- A session expiring far in the future (year 2286). -/
def jActive : SessionJson :=
  { jNoExpiry with
    expiresAt := some (.str "+010000-01-01T00:00:00.000Z" (some 9999999999999)) }

/-- A session whose `expiresAt` is the epoch-milliseconds number 500. -/
def jPastNum : SessionJson :=
  { jNoExpiry with expiresAt := some (.num 500) }

/-- Storage holding the expired session. -/
def lsExpired : LS := { emptyLS with sessionBlob := some (.val (.obj jExpired)) }

/-- Storage holding the active session. -/
def lsActive : LS := { emptyLS with sessionBlob := some (.val (.obj jActive)) }

/-- Storage whose session blob makes `JSON.parse` throw. -/
def corruptLS : LS := { emptyLS with sessionBlob := some .corrupt }

/-- A catalog product that carries all three financial fields. -/
def sampleProduct : Product :=
  { id := 1, name := "Apples", price := 5, stock := 10, category := some "fruit",
    imageUrl := none, purchasePrice := some 3, minSellingPrice := some 4,
    profitMargin := some 40 }

/-- An active vendor with the mock credentials' email. -/
def sampleVendor : Vendor :=
  { id := 1, name := "Acme", email := "v@x.com", phone := "1234567",
    businessType := "General", address := "", status := "active", rating := 0,
    totalOrders := 0, deletedAt := none, updatedAt := none }

/-- An active vendor whose numeric id is the falsy value `0`. -/
def vendorZero : Vendor := { sampleVendor with id := 0 }

/-! ## Helper lemmas -/

theorem validateSessionData_mkSession (now : Int) (u : User) (t : Option String) :
    validateSessionData (some (.obj (mkSession now u t))) = true := rfl

theorem createSession_eq (now : Int) (u : User) (t : Option String) (ls : LS) :
    createSession now u t ls =
      { state :=
          { ls with
            sessionBlob := some (.val (.obj (mkSession now u t)))
            tokenVal := if jsTruthyStr t then t else ls.tokenVal
            userBlob := some u }
        ret := some (mkSession now u t)
        events := [some (mkSession now u t)] } := rfl

theorem getSession_store_mkSession (now : Int) (u : User) (t : Option String) (ls : LS) :
    getSession (createSession now u t ls).state = some (mkSession now u t) := rfl

theorem getSession_validates (ls : LS) (s : SessionJson)
    (h : getSession ls = some s) :
    validateSessionData (some (.obj s)) = true := by
  unfold getSession at h
  rcases hb : ls.sessionBlob with _ | b
  · rw [hb] at h; cases h
  · rcases b with _ | v
    · rw [hb] at h; cases h
    · rcases v with _ | j
      · rw [hb] at h; cases h
      · rw [hb] at h
        by_cases hv : validateSessionData (some (.obj j)) = true
        · simp only [hv, if_true] at h
          cases h; exact hv
        · simp only [hv] at h
          simp [Bool.not_eq_true] at hv
          simp [hv] at h

/-! ## Claim theorems -/

theorem isSessionExpired_some_arg (now : Int) (ls : LS) (j : SessionJson) :
    isSessionExpired now ls (some j) = jsGtNaN now (jsGetTime j.expiresAt) := rfl

/-- C2 (amended): `isSessionExpired` treats a null session as expired, but
a session object whose `expiresAt` is missing is NOT treated as expired:
the main copy compares `Date.now() > NaN`, which is false, and the
part_007 copy explicitly returns `false` ("non-expiring").  A non-empty
unparseable `expiresAt` string is likewise not expired in the main copy,
while the part_007 copy treats it as expired. -/
theorem isSessionExpired_missing_expiry (now : Int) (ls : LS) (j : SessionJson)
    (s : String) :
    isSessionExpired now emptyLS none = true ∧
    (j.expiresAt = none →
      isSessionExpired now ls (some j) = false ∧
      isSessionExpiredP007 now (some j) = false) ∧
    (j.expiresAt = some (.str s none) → isSessionExpired now ls (some j) = false) ∧
    (j.expiresAt = some (.str s none) → (s == "") = false →
      isSessionExpiredP007 now (some j) = true) := by
  refine ⟨rfl, ?_, ?_, ?_⟩
  · intro h
    exact ⟨by simp [isSessionExpired_some_arg, h, jsGetTime, jsGtNaN],
           by simp [isSessionExpiredP007, h]⟩
  · intro h
    simp [isSessionExpired_some_arg, h, jsGetTime, jsGtNaN]
  · intro h hs
    simp [isSessionExpiredP007, h, ExpiresVal.jsFalsy, hs]

/-- C2 witness: the two lenient behaviours evaluated on concrete sessions. -/
theorem isSessionExpired_missing_expiry_witness :
    isSessionExpired 1000 emptyLS (some jNoExpiry) = false ∧
    isSessionExpiredP007 1000 (some jNoExpiry) = false ∧
    isSessionExpired 1000 emptyLS (some jBadStr) = false ∧
    isSessionExpiredP007 1000 (some jBadStr) = true := by
  have h := isSessionExpired_missing_expiry 1000 emptyLS jNoExpiry "not-a-date"
  have h2 := isSessionExpired_missing_expiry 1000 emptyLS jBadStr "not-a-date"
  exact ⟨(h.2.1 rfl).1, (h.2.1 rfl).2, h2.2.2.1 rfl, h2.2.2.2 rfl rfl⟩

/-- C2 counterexample: a session with the `expiresAt` property missing
(or holding an unparseable string) is reported NOT expired by the main
`isSessionExpired`, contradicting the claim that it returns true. -/
theorem isSessionExpired_missing_expiry_cex :
    isSessionExpired 1000 emptyLS (some jNoExpiry) = false ∧
    isSessionExpiredP007 1000 (some jNoExpiry) = false ∧
    isSessionExpired 1000 emptyLS (some jBadStr) = false :=
  ⟨rfl, rfl, rfl⟩

/-- C3: for a session whose `expiresAt` denotes a valid instant in the
past — whether as a parseable timestamp string or as an in-range
epoch-milliseconds number — `isSessionExpired` returns true, in the main
copy and in the part_002 and part_004 copies cited by the spec. -/
theorem isSessionExpired_past_expiry (now : Int) (ls : LS) (j : SessionJson)
    (s : String) (t : Int) (n : Int) :
    (j.expiresAt = some (.str s (some t)) → t < now →
      isSessionExpired now ls (some j) = true ∧
      isSessionExpiredP002 now (some j) = true ∧
      isSessionExpiredP004 now (some j) = true) ∧
    (j.expiresAt = some (.num n) → n < now → n.natAbs ≤ maxTimeMs →
      isSessionExpired now ls (some j) = true ∧
      isSessionExpiredP002 now (some j) = true ∧
      isSessionExpiredP004 now (some j) = true) := by
  constructor
  · intro h ht
    refine ⟨?_, ?_, ?_⟩
    · simp [isSessionExpired_some_arg, h, jsGetTime, jsGtNaN, ht]
    · by_cases hs : (s == "") = true
      · simp [isSessionExpiredP002, h, ExpiresVal.jsFalsy, hs]
      · simp only [Bool.not_eq_true] at hs
        simp [isSessionExpiredP002, h, ExpiresVal.jsFalsy, hs, jsGetTime]
        omega
    · by_cases hs : (s == "") = true
      · simp [isSessionExpiredP004, h, ExpiresVal.jsFalsy, hs]
      · simp only [Bool.not_eq_true] at hs
        simp [isSessionExpiredP004, h, ExpiresVal.jsFalsy, hs, jsGetTime, ht]
  · intro h hn hr
    refine ⟨?_, ?_, ?_⟩
    · simp [isSessionExpired_some_arg, h, jsGetTime, jsDateMs, hr, jsGtNaN, hn]
    · by_cases h0 : (n == 0) = true
      · simp [isSessionExpiredP002, h, ExpiresVal.jsFalsy, h0]
      · simp only [Bool.not_eq_true] at h0
        simp [isSessionExpiredP002, h, ExpiresVal.jsFalsy, h0, jsGetTime, jsDateMs, hr]
        omega
    · by_cases h0 : (n == 0) = true
      · simp [isSessionExpiredP004, h, ExpiresVal.jsFalsy, h0]
      · simp only [Bool.not_eq_true] at h0
        simp [isSessionExpiredP004, h, ExpiresVal.jsFalsy, h0, jsGetTime, jsDateMs, hr, hn]

/-- C3 witness: a session expired in 2020 checked in September 2020, and
a session with numeric `expiresAt` 500 checked at time 1000. -/
theorem isSessionExpired_past_expiry_witness :
    ((1577836800000 : Int) < 1600000000000) ∧
    isSessionExpired 1600000000000 emptyLS (some jExpired) = true ∧
    isSessionExpiredP002 1600000000000 (some jExpired) = true ∧
    isSessionExpiredP004 1600000000000 (some jExpired) = true ∧
    ((500 : Int) < 1000) ∧
    isSessionExpired 1000 emptyLS (some jPastNum) = true ∧
    isSessionExpiredP002 1000 (some jPastNum) = true ∧
    isSessionExpiredP004 1000 (some jPastNum) = true := by
  have h1 := (isSessionExpired_past_expiry 1600000000000 emptyLS jExpired
    "2020-01-01T00:00:00.000Z" 1577836800000 0).1 rfl (by decide)
  have h2 := (isSessionExpired_past_expiry 1000 emptyLS jPastNum
    "" 0 500).2 rfl (by decide) (by decide)
  exact ⟨by decide, h1.1, h1.2.1, h1.2.2, by decide, h2.1, h2.2.1, h2.2.2⟩

/-- C6: `createSession(user, token)` builds a session with the fixed
24-hour expiry window, persists it, notifies the registered listeners,
and an immediately following `getCurrentSession()` returns that session,
whose `user` is exactly the input user object. -/
theorem createSession_then_getCurrentSession (now : Int) (user : User)
    (token : Option String) (ls : LS) :
    (createSession now user token ls).ret = some (mkSession now user token) ∧
    (mkSession now user token).user = some user ∧
    (mkSession now user token).expiresAt =
      some (.str (isoStringOf (now + sessionTimeout)) (some (now + sessionTimeout))) ∧
    sessionTimeout = 24 * 60 * 60 * 1000 ∧
    (createSession now user token ls).events = [some (mkSession now user token)] ∧
    getCurrentSession (createSession now user token ls).state =
      some (mkSession now user token) :=
  ⟨rfl, rfl, rfl, rfl, rfl, rfl⟩

/-- C7: after `clearSession()` the stored state is empty, listeners are
notified with `null`, and the next `getCurrentSession()` returns `null`
rather than any previous user's data. -/
theorem clearSession_then_getCurrentSession (ls : LS) :
    getCurrentSession (clearSession ls).state = none ∧
    (clearSession ls).events = [none] ∧
    (clearSession ls).state = emptyLS :=
  ⟨rfl, rfl, rfl⟩

/-- C1 (amended): `getCurrentSession()` is just `getSession()`: for a
missing or corrupt stored blob it returns `null`, and a stored session
that passes the structural validation is returned as is, even when it is
already expired.  The guest-session replacement happens only in
`initializeSession()` (run once from the constructor), which on a
missing or expired stored session creates and persists a fresh guest
session and returns it. -/
theorem getCurrentSession_no_guest_fallback (now : Int) (ls : LS) :
    getCurrentSession ls = getSession ls ∧
    (ls.sessionBlob = none → getCurrentSession ls = none) ∧
    (ls.sessionBlob = some .corrupt → getCurrentSession ls = none) ∧
    (∀ j, getSession ls = some j → getCurrentSession ls = some j) ∧
    (getSession ls = none →
      (initializeSession now ls).ret = some (mkSession now (guestUser now) none) ∧
      getSession (initializeSession now ls).state =
        some (mkSession now (guestUser now) none)) ∧
    (∀ j, getSession ls = some j → isSessionExpired now ls (some j) = true →
      (initializeSession now ls).ret = some (mkSession now (guestUser now) none) ∧
      getSession (initializeSession now ls).state =
        some (mkSession now (guestUser now) none)) := by
  refine ⟨rfl, ?_, ?_, ?_, ?_, ?_⟩
  · intro h; simp [getCurrentSession, getSession, h]
  · intro h; simp [getCurrentSession, getSession, h]
  · intro j h; simpa [getCurrentSession] using h
  · intro h
    constructor
    · simp [initializeSession, h, clearSession, createGuestSession, createSession_eq]
    · simp [initializeSession, h, clearSession, createGuestSession,
        getSession_store_mkSession]
  · intro j h hexp
    constructor
    · simp [initializeSession, h, hexp, clearSession, createGuestSession, createSession_eq]
    · simp [initializeSession, h, hexp, clearSession, createGuestSession,
        getSession_store_mkSession]

/-- C1 witness: on empty storage `getCurrentSession()` is `null`, and
`initializeSession` at the expired fixture replaces it with a persisted
guest session. -/
theorem getCurrentSession_no_guest_fallback_witness :
    getCurrentSession emptyLS = none ∧
    (initializeSession 1600000000000 lsExpired).ret =
      some (mkSession 1600000000000 (guestUser 1600000000000) none) ∧
    getSession (initializeSession 1600000000000 lsExpired).state =
      some (mkSession 1600000000000 (guestUser 1600000000000) none) := by
  have h := getCurrentSession_no_guest_fallback 1600000000000 lsExpired
  have h0 := getCurrentSession_no_guest_fallback 1600000000000 emptyLS
  exact ⟨h0.2.1 rfl, (h.2.2.2.2.2 jExpired rfl (by decide)).1,
    (h.2.2.2.2.2 jExpired rfl (by decide)).2⟩

/-- C1 counterexample: with no stored session `getCurrentSession()`
returns `null` — not a valid, non-null guest session — and with a stored
but expired customer session it returns that expired session unchanged
and persists nothing new. -/
theorem getCurrentSession_missing_or_expired_cex :
    getCurrentSession emptyLS = none ∧
    getCurrentSession lsExpired = some jExpired ∧
    isSessionExpired 1600000000000 lsExpired (some jExpired) = true ∧
    jExpired.user = some sampleUser ∧
    sampleUser.role = some "customer" :=
  ⟨rfl, rfl, by decide, rfl, rfl⟩

/-- C4 (amended): `createGuestSession()` produces a session whose user
has role `guest` and the restricted two-permission set (a strict subset
of the customer permissions), whose expiry window equals the
authenticated 24-hour window, and whose session is unauthenticated; the
main copy sets no `isGuest` flag on the user.  After initialization on
empty storage, `getCurrentSession()` returns exactly that guest session
with `expiresAt` 24 hours after creation. -/
theorem createGuestSession_restricted (now : Int) (ls : LS) :
    (guestUser now).role = some "guest" ∧
    (guestUser now).permissions = some ["view_products", "add_to_cart"] ∧
    (guestUser now).isGuest = none ∧
    getDefaultPermissions "guest" = ["view_products", "add_to_cart"] ∧
    ((getDefaultPermissions "guest").all
      (fun p => (getDefaultPermissions "customer").contains p)) = true ∧
    (getDefaultPermissions "guest").length < (getDefaultPermissions "customer").length ∧
    (createGuestSession now ls).ret = some (mkSession now (guestUser now) none) ∧
    (mkSession now (guestUser now) none).user = some (guestUser now) ∧
    (mkSession now (guestUser now) none).expiresAt =
      some (.str (isoStringOf (now + sessionTimeout)) (some (now + sessionTimeout))) ∧
    (mkSession now (guestUser now) none).isAuthenticated = some false ∧
    sessionTimeout = 24 * 60 * 60 * 1000 ∧
    (initializeSession now emptyLS).ret = some (mkSession now (guestUser now) none) ∧
    getCurrentSession (initializeSession now emptyLS).state =
      some (mkSession now (guestUser now) none) :=
  ⟨rfl, rfl, rfl, by decide, by decide, by decide, rfl, rfl, rfl, rfl, rfl, rfl, rfl⟩

/-- C4 counterexample: the guest session produced on first access has no
`isGuest` property at all on its user (`none`), so `getCurrentSession()`
does not yield a user with `isGuest = true` as claimed. -/
theorem createGuestSession_isGuest_cex :
    (initializeSession 0 emptyLS).ret = some (mkSession 0 (guestUser 0) none) ∧
    (mkSession 0 (guestUser 0) none).user = some (guestUser 0) ∧
    (guestUser 0).isGuest = none ∧
    (guestUser 0).role = some "guest" :=
  ⟨rfl, rfl, rfl, rfl⟩

/-- C8: `updateUser({name: "X"})` on an active session succeeds, stores a
session whose user is the old user with only `name` replaced (the merge
`{...user, ...patch}` leaves `id`, `role` and every other user field
untouched, and the session keeps its `id`/`expiresAt`), and with no
active session it returns `false` and leaves the state unchanged. -/
theorem updateUser_frame (now : Int) (x : String) (ls : LS) (s : SessionJson)
    (u : User) :
    (getSession ls = some s → s.user = some u →
      (updateUser now (namePatch x) ls).ret = true ∧
      (updateUser now (namePatch x) ls).events =
        [some { s with user := some (mergeUser u (namePatch x)), lastActivity := some now }] ∧
      getSession (updateUser now (namePatch x) ls).state =
        some { s with user := some (mergeUser u (namePatch x)), lastActivity := some now } ∧
      mergeUser u (namePatch x) = { u with name := some x }) ∧
    (getSession ls = none →
      updateUser now (namePatch x) ls = { state := ls, ret := false, events := [] }) := by
  constructor
  · intro h hu
    have hv := getSession_validates ls s h
    simp only [validateSessionData, Bool.and_eq_true, Option.isSome_iff_exists] at hv
    have hid := hv.1.1.1
    have hcreated := hv.1.2
    have hexp := hv.2
    have hmerge : mergeUser u (namePatch x) = { u with name := some x } := by
      cases u; simp [mergeUser, namePatch, emptyUser]
    refine ⟨?_, ?_, ?_, hmerge⟩
    · simp [updateUser, h]
    · simp [updateUser, h, hu]
    · simp only [updateUser, h]
      simp only [getSession, Option.getD_some, hu]
      have : validateSessionData (some (.obj
          { s with user := some (mergeUser u (namePatch x)), lastActivity := some now })) =
          true := by
        obtain ⟨a, ha⟩ := hid
        obtain ⟨c, hc⟩ := hcreated
        obtain ⟨e, he⟩ := hexp
        simp [validateSessionData, ha, hc, he]
      simp [this]
  · intro h
    simp [updateUser, h]

/-- C8 witness: the active fixture session is updated in place and the
empty storage case returns `false`. -/
theorem updateUser_frame_witness :
    (updateUser 7 (namePatch "X") lsActive).ret = true ∧
    mergeUser sampleUser (namePatch "X") = { sampleUser with name := some "X" } ∧
    updateUser 7 (namePatch "X") emptyLS = { state := emptyLS, ret := false, events := [] } := by
  have h := updateUser_frame 7 "X" lsActive jActive sampleUser
  have h0 := updateUser_frame 7 "X" emptyLS jActive sampleUser
  exact ⟨(h.1 rfl rfl).1, (h.1 rfl rfl).2.2.2, h0.2 rfl⟩

theorem productGetById_ok_elim (products : List Product) (id : Int) (userRole : String)
    (p : Product) (hp : productGetById products id userRole = .ok p) :
    ∃ q, q ∈ products ∧ q.id = id ∧
      p = (if userRole != "admin" then stripFinancial q else q) := by
  unfold productGetById at hp
  by_cases h0 : (id == 0) = true
  · simp [h0] at hp
  · simp only [Bool.not_eq_true] at h0
    by_cases h1 : id ≤ 0
    · simp [h0, h1] at hp
    · rcases hf : products.find? (fun r => r.id == id) with _ | q
      · simp [h0, h1, hf] at hp
      · have hq := List.find?_some hf
        have hmem : q ∈ products := List.mem_of_find?_eq_some hf
        refine ⟨q, hmem, by simpa using hq, ?_⟩
        by_cases hr : (userRole != "admin") = true
        · simp [h0, h1, hf, hr] at hp
          simp [hr, hp]
        · simp only [Bool.not_eq_true] at hr
          simp [h0, h1, hf, hr] at hp
          simp [hr, hp]

/-- C9: for a non-admin role, `ProductService.getAll` returns every
product with `purchasePrice`, `minSellingPrice` and `profitMargin`
removed and every other field unchanged, and `ProductService.getById`
returns the stored product with exactly those fields removed; for the
admin role both return the stored products with the financial fields
retained. -/
theorem product_financial_filtering (products : List Product) (userRole : String)
    (id : Int) (h : (userRole == "admin") = false) :
    productGetAll products userRole = products.map stripFinancial ∧
    productGetAll products "admin" = products ∧
    (∀ q, (stripFinancial q).purchasePrice = none ∧
      (stripFinancial q).minSellingPrice = none ∧
      (stripFinancial q).profitMargin = none ∧
      (stripFinancial q).id = q.id ∧ (stripFinancial q).name = q.name ∧
      (stripFinancial q).price = q.price ∧ (stripFinancial q).stock = q.stock ∧
      (stripFinancial q).category = q.category ∧
      (stripFinancial q).imageUrl = q.imageUrl) ∧
    (∀ p, productGetById products id userRole = .ok p →
      ∃ q, q ∈ products ∧ q.id = id ∧ p = stripFinancial q) ∧
    (∀ p, productGetById products id "admin" = .ok p → p ∈ products ∧ p.id = id) := by
  refine ⟨?_, ?_, ?_, ?_, ?_⟩
  · simp [productGetAll, bne, h]
  · rfl
  · intro q
    exact ⟨rfl, rfl, rfl, rfl, rfl, rfl, rfl, rfl, rfl⟩
  · intro p hp
    obtain ⟨q, hmem, hqid, hpe⟩ := productGetById_ok_elim products id userRole p hp
    rw [bne, h] at hpe
    exact ⟨q, hmem, hqid, by simpa using hpe⟩
  · intro p hp
    obtain ⟨q, hmem, hqid, hpe⟩ := productGetById_ok_elim products id "admin" p hp
    simp at hpe
    exact ⟨hpe ▸ hmem, hpe ▸ hqid⟩

/-- C9 witness: the one-product catalog evaluated for a customer and for
an admin. -/
theorem product_financial_filtering_witness :
    (("customer" == "admin") = false) ∧
    productGetAll [sampleProduct] "customer" = [stripFinancial sampleProduct] ∧
    productGetAll [sampleProduct] "admin" = [sampleProduct] ∧
    (stripFinancial sampleProduct).purchasePrice = none ∧
    productGetById [sampleProduct] 1 "customer" = .ok (stripFinancial sampleProduct) ∧
    productGetById [sampleProduct] 1 "admin" = .ok sampleProduct := by
  have h := product_financial_filtering [sampleProduct] "customer" 1 rfl
  exact ⟨rfl, h.1, h.2.1, (h.2.2.1 sampleProduct).1, rfl, rfl⟩

/-- C5 (amended): the `SessionService` methods convert failures into safe
defaults — a corrupt stored blob makes `getSession` return `null` and
`updateUser` then returns `false` with the state unchanged — but the
mock-API services do NOT follow the claimed pattern: `ProductService.getById`
rethrows `Product not found` for an unknown id, and `VendorService.login`
rethrows `Invalid credentials` / `Invalid credentials or vendor not found`,
so errors are propagated to callers there. -/
theorem error_propagation (ls : LS) (now : Int) (u : User) (products : List Product)
    (id : Int) (userRole : String) (vendors : List Vendor) (email password : String) :
    (ls.sessionBlob = some .corrupt → getSession ls = none) ∧
    (getSession ls = none →
      updateUser now u ls = { state := ls, ret := false, events := [] }) ∧
    (0 < id → (∀ p ∈ products, (p.id == id) = false) →
      productGetById products id userRole = .error "Product not found") ∧
    ((email == "") = false → (password == "") = false →
      (password == "vendor123") = false →
      ∀ v, vendors.find? (fun w => strToLower w.email == strToLower email &&
          w.status == "active") = some v →
        vendorLogin vendors email password = .error "Invalid credentials") ∧
    ((email == "") = false → (password == "") = false →
      vendors.find? (fun w => strToLower w.email == strToLower email &&
          w.status == "active") = none →
        vendorLogin vendors email password =
          .error "Invalid credentials or vendor not found") := by
  refine ⟨?_, ?_, ?_, ?_, ?_⟩
  · intro h; simp [getSession, h]
  · intro h; simp [updateUser, h]
  · intro hpos hnone
    have h0 : (id == 0) = false := beq_eq_false_iff_ne.mpr (by omega)
    have h1 : ¬ id ≤ 0 := by omega
    have hf : products.find? (fun p => p.id == id) = none := by
      rw [List.find?_eq_none]
      intro p hp
      simp [hnone p hp]
    have hrw : rewrapProductError "Product not found" = "Product not found" := rfl
    simp [productGetById, h0, h1, hf, hrw]
  · intro he hp hv v hfind
    simp [vendorLogin, he, hp, hfind, bne, hv]
  · intro he hp hfind
    simp [vendorLogin, he, hp, hfind]

/-- C5 witness: the concrete corrupt-storage and unknown-id/bad-password
behaviours. -/
theorem error_propagation_witness :
    getSession corruptLS = none ∧
    updateUser 0 (namePatch "X") corruptLS =
      { state := corruptLS, ret := false, events := [] } ∧
    ((0 : Int) < 999) ∧
    productGetById [sampleProduct] 999 "customer" = .error "Product not found" ∧
    vendorLogin [sampleVendor] "v@x.com" "wrongpass" = .error "Invalid credentials" ∧
    vendorLogin [] "v@x.com" "vendor123" =
      .error "Invalid credentials or vendor not found" := by
  have h := error_propagation corruptLS 0 (namePatch "X") [sampleProduct] 999 "customer"
    [sampleVendor] "v@x.com" "wrongpass"
  have h2 := error_propagation corruptLS 0 (namePatch "X") [sampleProduct] 999 "customer"
    [] "v@x.com" "vendor123"
  exact ⟨h.1 rfl, h.2.1 (h.1 rfl), by decide, h.2.2.1 (by decide) (by decide),
    h.2.2.2.1 rfl rfl rfl sampleVendor rfl, h2.2.2.2.2 rfl rfl rfl⟩

/-- C5 counterexample: two public service methods that throw instead of
returning a safe default — `ProductService.getById` on an unknown id and
`VendorService.login` with a wrong password — refuting the claim that
errors are never propagated to callers. -/
theorem error_propagation_cex :
    productGetById [sampleProduct] 999 "customer" = .error "Product not found" ∧
    vendorLogin [sampleVendor] "v@x.com" "wrongpass" = .error "Invalid credentials" :=
  ⟨rfl, rfl⟩

theorem softDeleteFirst_eq_none (now vendorId : Int) (l : List Vendor)
    (h : ∀ v ∈ l, (v.id == vendorId) = false) :
    softDeleteFirst now vendorId l = none := by
  induction l with
  | nil => rfl
  | cons v rest ih =>
    have hv := h v (by simp)
    simp only [softDeleteFirst, hv, Bool.false_eq_true, if_false, Option.map_eq_none']
    exact ih (fun w hw => h w (by simp [hw]))

theorem softDeleteFirst_exists (now vendorId : Int) (l : List Vendor)
    (h : ∃ v ∈ l, (v.id == vendorId) = true) :
    ∃ l', softDeleteFirst now vendorId l = some l' := by
  induction l with
  | nil => simp at h
  | cons v rest ih =>
    by_cases hv : (v.id == vendorId) = true
    · exact ⟨markDeleted now v :: rest, by simp [softDeleteFirst, hv]⟩
    · simp only [Bool.not_eq_true] at hv
      obtain ⟨w, hw, hwid⟩ := h
      rcases List.mem_cons.mp hw with hw1 | hw2
      · rw [hw1] at hwid
        rw [hwid] at hv
        cases hv
      · obtain ⟨l', hl'⟩ := ih ⟨w, hw2, hwid⟩
        exact ⟨v :: l', by simp [softDeleteFirst, hv, hl']⟩

theorem softDeleteFirst_spec (now vendorId : Int) (l : List Vendor) :
    ∀ l', softDeleteFirst now vendorId l = some l' →
      l'.length = l.length ∧
      List.Forall₂
        (fun v' v => v' = v ∨ ((v.id == vendorId) = true ∧ v' = markDeleted now v)) l' l ∧
      ∃ v ∈ l, (v.id == vendorId) = true ∧ markDeleted now v ∈ l' := by
  induction l with
  | nil => intro l' h; cases h
  | cons v rest ih =>
    intro l' h
    by_cases hv : (v.id == vendorId) = true
    · simp only [softDeleteFirst, hv, if_true] at h
      cases h
      refine ⟨by simp, ?_, v, by simp, hv, by simp⟩
      exact List.Forall₂.cons (Or.inr ⟨hv, rfl⟩)
        (List.forall₂_same.mpr (fun w _ => Or.inl rfl))
    · simp only [Bool.not_eq_true] at hv
      simp only [softDeleteFirst, hv, Bool.false_eq_true, if_false] at h
      rcases hrec : softDeleteFirst now vendorId rest with _ | m
      · rw [hrec] at h; cases h
      · rw [hrec] at h
        simp only [Option.map_some'] at h
        cases h
        obtain ⟨hlen, hall, w, hwmem, hwid, hwin⟩ := ih m hrec
        exact ⟨by simp [hlen], List.Forall₂.cons (Or.inl rfl) hall,
          w, by simp [hwmem], hwid, by simp [hwin]⟩

/-- C10 (amended): for every vendor in the collection whose id is not the
falsy value `0`, `deleteVendor(id)` soft-deletes: the list keeps its
length, the first matching vendor gets `status = "inactive"` and
`deletedAt`/`updatedAt` set with every other field unchanged, and every
other entry is untouched; for a nonzero id with no matching vendor it
throws `Vendor not found` and leaves the collection unchanged (a zero id
instead throws `Vendor ID is required`). -/
theorem deleteVendor_soft_delete (now : Int) (vendors : List Vendor) (vendorId : Int)
    (h : (vendorId == 0) = false) :
    ((∃ v ∈ vendors, (v.id == vendorId) = true) →
      ∃ l, deleteVendor now vendors vendorId = (l, .ok "Vendor deleted successfully") ∧
        l.length = vendors.length ∧
        List.Forall₂
          (fun v' v => v' = v ∨ ((v.id == vendorId) = true ∧ v' = markDeleted now v))
          l vendors ∧
        ∃ v ∈ vendors, (v.id == vendorId) = true ∧ markDeleted now v ∈ l) ∧
    ((∀ v ∈ vendors, (v.id == vendorId) = false) →
      deleteVendor now vendors vendorId = (vendors, .error "Vendor not found")) ∧
    (∀ v, (markDeleted now v).status = "inactive" ∧
      (markDeleted now v).deletedAt = some now ∧
      (markDeleted now v).updatedAt = some now ∧
      (markDeleted now v).id = v.id ∧ (markDeleted now v).name = v.name ∧
      (markDeleted now v).email = v.email ∧ (markDeleted now v).phone = v.phone ∧
      (markDeleted now v).businessType = v.businessType ∧
      (markDeleted now v).address = v.address ∧
      (markDeleted now v).rating = v.rating ∧
      (markDeleted now v).totalOrders = v.totalOrders) := by
  refine ⟨?_, ?_, ?_⟩
  · intro hex
    obtain ⟨l', hl'⟩ := softDeleteFirst_exists now vendorId vendors hex
    obtain ⟨hlen, hall, hmem⟩ := softDeleteFirst_spec now vendorId vendors l' hl'
    exact ⟨l', by simp [deleteVendor, h, hl'], hlen, hall, hmem⟩
  · intro hnone
    simp [deleteVendor, h, softDeleteFirst_eq_none now vendorId vendors hnone]
  · intro v
    exact ⟨rfl, rfl, rfl, rfl, rfl, rfl, rfl, rfl, rfl, rfl, rfl⟩

/-- C10 witness: soft-deleting the sample vendor keeps it in the list
with `status = "inactive"`, and a nonzero unknown id reports
`Vendor not found` with the list untouched. -/
theorem deleteVendor_soft_delete_witness :
    (((1 : Int) == 0) = false) ∧
    deleteVendor 5 [sampleVendor] 1 =
      ([markDeleted 5 sampleVendor], .ok "Vendor deleted successfully") ∧
    (markDeleted 5 sampleVendor).status = "inactive" ∧
    (markDeleted 5 sampleVendor).deletedAt = some 5 ∧
    (markDeleted 5 sampleVendor).name = sampleVendor.name ∧
    deleteVendor 5 [sampleVendor] 2 = ([sampleVendor], .error "Vendor not found") := by
  have h1 := deleteVendor_soft_delete 5 [sampleVendor] 1 rfl
  have h2 := deleteVendor_soft_delete 5 [sampleVendor] 2 rfl
  obtain ⟨_l, _hl, -⟩ := h1.1 ⟨sampleVendor, by simp, rfl⟩
  exact ⟨rfl, rfl, (h1.2.2 sampleVendor).1, (h1.2.2 sampleVendor).2.1,
    (h1.2.2 sampleVendor).2.2.2.2.1, h2.2.1 (by decide)⟩

/-- C10 counterexample: a vendor whose (JS-falsy) id is `0` exists in the
collection, yet `deleteVendor(0)` throws `Vendor ID is required` and the
vendor stays `active` — contradicting the claim for "every existing
vendor id". -/
theorem deleteVendor_falsy_id_cex :
    vendorZero.id = 0 ∧ vendorZero.status = "active" ∧
    deleteVendor 5 [vendorZero] 0 = ([vendorZero], .error "Vendor ID is required") :=
  ⟨rfl, rfl, rfl⟩

end FreshMart
